import Mathlib

/-!
Verification of `make_submission.py` (kaggle-dstl): the raster→vector
conversion and evaluation subsystem.  Floating-point values of the code are
embedded as rationals, numpy arrays as lists of lists, the mask-file store as
a partial map from image ids, and the external collaborators (`shapely`,
`utils`, the segmentation model) as record fields of an environment.
-/

namespace MakeSubmission

/-- One polygon: an exterior ring plus interior rings (holes).  Coordinates
are rational pairs standing for the code's floating-point pairs. -/
structure PolyG where
  exterior : List (ℚ × ℚ)
  interiors : List (List (ℚ × ℚ))
deriving Repr, DecidableEq

/-- `shapely.geometry.MultiPolygon`: an ordered collection of polygons. -/
abbrev MultiPolygon := List PolyG

/-- A stored probability mask: a 2-D array of real-valued scores. -/
abbrev Mask := List (List ℚ)

/-- A thresholded boolean mask. -/
abbrev BoolMask := List (List Bool)

/-- numpy `.shape` of a 2-D array (also `.shape[:2]`): (rows, columns). -/
def shape2 {α : Type} (m : List (List α)) : Nat × Nat :=
  (m.length, (m.headD []).length)

/-- Scale one coordinate pair by factors `(fx, fy)` about the origin. -/
def scalePoint (fx fy : ℚ) (p : ℚ × ℚ) : ℚ × ℚ :=
  (p.1 * fx, p.2 * fy)

/-- Scale every coordinate of a ring. -/
def scaleRing (fx fy : ℚ) (r : List (ℚ × ℚ)) : List (ℚ × ℚ) :=
  r.map (scalePoint fx fy)

/-- Scale every ring of a polygon. -/
def scalePolyG (fx fy : ℚ) (p : PolyG) : PolyG :=
  ⟨scaleRing fx fy p.exterior, p.interiors.map (scaleRing fx fy)⟩

/-- `shapely.affinity.scale(P, xfact, yfact, origin=(0, 0, 0))`: every
coordinate `(x, y)` becomes `(x·fx, y·fy)`, origin fixed, no translation. -/
def affinity_scale (P : MultiPolygon) (fx fy : ℚ) : MultiPolygon :=
  P.map (scalePolyG fx fy)

/-- All coordinate pairs of a polygon, exterior ring first. -/
def polyCoords (p : PolyG) : List (ℚ × ℚ) :=
  p.exterior ++ p.interiors.flatten

/-- All coordinate pairs of a multipolygon. -/
def allCoords (P : MultiPolygon) : List (ℚ × ℚ) :=
  (P.map polyCoords).flatten

lemma scaleRing_eq (fx fy : ℚ) :
    scaleRing fx fy = List.map (scalePoint fx fy) := rfl

lemma polyCoords_scale (fx fy : ℚ) (p : PolyG) :
    polyCoords (scalePolyG fx fy p) = (polyCoords p).map (scalePoint fx fy) := by
  simp [polyCoords, scalePolyG, scaleRing_eq, List.map_flatten, List.map_append]

lemma allCoords_scale (fx fy : ℚ) (P : MultiPolygon) :
    allCoords (affinity_scale P fx fy) = (allCoords P).map (scalePoint fx fy) := by
  simp only [allCoords, affinity_scale, List.map_flatten, List.map_map]
  refine congrArg List.flatten (List.map_congr_left fun p _ => ?_)
  exact polyCoords_scale fx fy p

lemma scalePoint_roundtrip (fx fy : ℚ) (hfx : fx ≠ 0) (hfy : fy ≠ 0)
    (p : ℚ × ℚ) : scalePoint (1 / fx) (1 / fy) (scalePoint fx fy p) = p := by
  cases p with
  | mk x y =>
    simp [scalePoint]
    constructor
    · field_simp
    · field_simp

lemma scaleRing_roundtrip (fx fy : ℚ) (hfx : fx ≠ 0) (hfy : fy ≠ 0)
    (r : List (ℚ × ℚ)) :
    scaleRing (1 / fx) (1 / fy) (scaleRing fx fy r) = r := by
  simp only [scaleRing, List.map_map]
  rw [show (scalePoint (1 / fx) (1 / fy) ∘ scalePoint fx fy) = id from ?_]
  · exact List.map_id r
  · funext p
    exact scalePoint_roundtrip fx fy hfx hfy p

lemma scalePolyG_roundtrip (fx fy : ℚ) (hfx : fx ≠ 0) (hfy : fy ≠ 0)
    (p : PolyG) : scalePolyG (1 / fx) (1 / fy) (scalePolyG fx fy p) = p := by
  cases p with
  | mk ext ints =>
    simp only [scalePolyG, List.map_map, PolyG.mk.injEq]
    refine ⟨scaleRing_roundtrip fx fy hfx hfy ext, ?_⟩
    rw [show (scaleRing (1 / fx) (1 / fy) ∘ scaleRing fx fy) = id from ?_]
    · exact List.map_id ints
    · funext r
      exact scaleRing_roundtrip fx fy hfx hfy r

/-- The external collaborators seen by `make_submission.py`: the `utils`
module (scalers, extraction, rasterization, the ground-truth WKT table) and
the `shapely` geometry operations.  Their internals are outside this file's
source, so they are abstract fields; the claims under proof quantify over
them. -/
structure Geo where
  get_scalers : String → Nat × Nat → ℚ × ℚ
  mask_to_polygons : BoolMask → ℚ → MultiPolygon
  wkt_dumps : MultiPolygon → String
  wkt_loads : String → MultiPolygon
  scale_to_mask : String → Nat × Nat → MultiPolygon → MultiPolygon
  mask_for_polygons : Nat × Nat → MultiPolygon → BoolMask
  geo_inter : MultiPolygon → MultiPolygon → MultiPolygon
  geo_union : MultiPolygon → MultiPolygon → MultiPolygon
  area : MultiPolygon → ℚ
  wkt_data : String → Option (List (Nat × String))

/-- numpy `mask > threshold`: a fresh boolean array, elementwise strict
greater-than against the threshold. -/
def gt_threshold (m : Mask) (t : ℚ) : BoolMask :=
  m.map (fun row => row.map (fun v => decide (t < v)))

/-- `get_polygons(im_id, mask, epsilon, cls)`: extract polygons from the
boolean mask in pixel space, then rescale by the reciprocals of the scalers
for this image id and mask shape (origin-anchored). -/
def get_polygons (geo : Geo) (im_id : String) (mask : BoolMask)
    (epsilon : ℚ) (cls : Nat) : MultiPolygon :=
  let sc := geo.get_scalers im_id (shape2 mask)
  let x_scaler := 1 / sc.1
  let y_scaler := 1 / sc.2
  let polygons := geo.mask_to_polygons mask epsilon
  affinity_scale polygons x_scaler y_scaler

/-- `eps = 1e-15` of `log_jaccard`. -/
def eps : ℚ := 1 / 10 ^ 15

/-- Count the index-aligned pixel pairs of two boolean masks satisfying a
predicate. -/
def countPix (f : Bool → Bool → Bool) (a b : BoolMask) : Nat :=
  (a.flatten.zip b.flatten).countP (fun q => f q.1 q.2)

/-- Modelled from the spec: `utils.mask_tp_fp_fn` is not under `src/`; per
§4.5 it takes a predicted boolean mask and a reference boolean mask (the
threshold argument is already applied upstream and unused) and returns
`(tp, fp, fn)` with `tp = count(pred ∧ ref)`, `fp = count(pred ∧ ¬ref)`,
`fn = count(¬pred ∧ ref)`. -/
def mask_tp_fp_fn (pred ref : BoolMask) (threshold : ℚ) : Nat × Nat × Nat :=
  (countPix (fun a b => a && b) pred ref,
   countPix (fun a b => a && !b) pred ref,
   countPix (fun a b => !a && b) pred ref)

/-- `log_jaccard`: returns the pair of values interpolated into the log line,
`(polygon jaccard, mask jaccard)`. -/
def log_jaccard (geo : Geo) (im_id : String) (pred_poly : MultiPolygon)
    (train_poly_wkt : String) (mask : BoolMask) (threshold : ℚ) : ℚ × ℚ :=
  let im_size := shape2 mask
  let train_poly := geo.wkt_loads train_poly_wkt
  let scaled_train_poly := geo.scale_to_mask im_id im_size train_poly
  let true_mask := geo.mask_for_polygons im_size scaled_train_poly
  let c := mask_tp_fp_fn mask true_mask threshold
  ((geo.area (geo.geo_inter pred_poly train_poly)) /
     (geo.area (geo.geo_union pred_poly train_poly) + eps),
   (c.1 : ℚ) / (((c.1 : ℚ) + c.2.1 + c.2.2) + eps))

/-- Python dict lookup `d[k]` on an association list, `none` on `KeyError`. -/
def lookupD (d : List (Nat × String)) (k : Nat) : Option String :=
  (d.find? (fun p => p.1 == k)).map Prod.snd

/-- The per-image mask-file store: `none` means `store/{id}.mask` is absent. -/
abbrev Store := String → Option Mask

/-- `get_poly_data(im_id, store=…, cls=…, threshold=…, epsilon=…)`.  The
result row is `(im_id, str(poly_type), wkt)`; `Except.error` models an
uncaught `KeyError` when the ground-truth dict for the image is non-empty but
lacks the key `poly_type`. -/
def get_poly_data (geo : Geo) (store : Store) (im_id : String) (cls : Nat)
    (threshold : ℚ) (epsilon : ℚ) :
    Except String (String × String × String) :=
  let poly_type := cls + 1
  let train_polygons := geo.wkt_data im_id
  match store im_id with
  | some mask0 =>
    let mask := gt_threshold mask0 threshold
    let pred_poly := get_polygons geo im_id mask epsilon cls
    match train_polygons with
    | some d =>
      if d ≠ [] then
        match lookupD d poly_type with
        | some w => Except.ok (im_id, toString poly_type, w)
        | none => Except.error "KeyError"
      else
        Except.ok (im_id, toString poly_type, geo.wkt_dumps pred_poly)
    | none =>
      Except.ok (im_id, toString poly_type, geo.wkt_dumps pred_poly)
  | none =>
    Except.ok (im_id, toString poly_type, "MULTIPOLYGON EMPTY")

/-- One iteration of `main`'s mask-prediction loop: if the mask file exists
the store is untouched, otherwise the predicted mask is saved under the
image id. -/
def predict_step (predict : String → Mask) (s : Store) (im_id : String) :
    Store :=
  match s im_id with
  | some _ => s
  | none => fun id => if id = im_id then some (predict im_id) else s id

/-- The whole mask-prediction loop of `main` over a list of image ids. -/
def predict_masks (predict : String → Mask) (ids : List String) (s : Store) :
    Store :=
  ids.foldl (predict_step predict) s

/-- The reference pixel mask that `log_jaccard` rasterizes from the
ground-truth WKT string. -/
def true_mask_of (geo : Geo) (im_id : String) (tw : String)
    (mask : BoolMask) : BoolMask :=
  geo.mask_for_polygons (shape2 mask)
    (geo.scale_to_mask im_id (shape2 mask) (geo.wkt_loads tw))

lemma log_jaccard_eq (geo : Geo) (im_id : String) (pred_poly : MultiPolygon)
    (tw : String) (mask : BoolMask) (t : ℚ) :
    log_jaccard geo im_id pred_poly tw mask t =
      (geo.area (geo.geo_inter pred_poly (geo.wkt_loads tw)) /
         (geo.area (geo.geo_union pred_poly (geo.wkt_loads tw)) + 1 / 10 ^ 15),
       ((countPix (fun a b => a && b) mask (true_mask_of geo im_id tw mask) : ℚ) /
        ((countPix (fun a b => a && b) mask (true_mask_of geo im_id tw mask) : ℚ) +
          (countPix (fun a b => a && !b) mask (true_mask_of geo im_id tw mask) : ℚ) +
          (countPix (fun a b => !a && b) mask (true_mask_of geo im_id tw mask) : ℚ) +
          1 / 10 ^ 15))) := rfl

/-- A concrete environment used by the closed witnesses below. -/
def trivGeo : Geo where
  get_scalers := fun _ _ => (1, 1)
  mask_to_polygons := fun _ _ => []
  wkt_dumps := fun _ => "MULTIPOLYGON EMPTY"
  wkt_loads := fun _ => []
  scale_to_mask := fun _ _ P => P
  mask_for_polygons := fun _ _ => []
  geo_inter := fun _ _ => []
  geo_union := fun _ _ => []
  area := fun _ => 0
  wkt_data := fun _ => none

/-- `trivGeo` with a ground-truth entry `{1 : "GTWKT"}` for every image. -/
def gtGeo : Geo := { trivGeo with wkt_data := fun _ => some [(1, "GTWKT")] }

/-- `trivGeo` with a ground-truth entry `{5 : "w"}` for every image. -/
def gtGeo5 : Geo := { trivGeo with wkt_data := fun _ => some [(5, "w")] }

/-- A store in which every mask file exists, holding `[[1]]`. -/
def store1 : Store := fun _ => some [[1]]

/-- A store in which no mask file exists. -/
def store0 : Store := fun _ => none

/-- C5: rescaling a multipolygon by positive factors `(fx, fy)` and then by
`(1/fx, 1/fy)` reproduces its coordinates.  Coordinates are exact rationals
here, so the round trip is exact equality, a fortiori within floating-point
tolerance. -/
theorem rescale_roundtrip (P : MultiPolygon) (fx fy : ℚ)
    (hfx : 0 < fx) (hfy : 0 < fy) :
    affinity_scale (affinity_scale P fx fy) (1 / fx) (1 / fy) = P := by
  simp only [affinity_scale, List.map_map]
  rw [show (scalePolyG (1 / fx) (1 / fy) ∘ scalePolyG fx fy) = id from ?_]
  · exact List.map_id P
  · funext p
    exact scalePolyG_roundtrip fx fy (ne_of_gt hfx) (ne_of_gt hfy) p

/-- Witness for C5 at a concrete multipolygon and factors (2, 3). -/
theorem rescale_roundtrip_witness :
    (0 : ℚ) < 2 ∧ (0 : ℚ) < 3 ∧
    affinity_scale (affinity_scale [⟨[(1, 2), (3, 4)], [[(5, 6)]]⟩] 2 3)
      (1 / 2) (1 / 3) = [⟨[(1, 2), (3, 4)], [[(5, 6)]]⟩] :=
  ⟨by norm_num, by norm_num,
   rescale_roundtrip [⟨[(1, 2), (3, 4)], [[(5, 6)]]⟩] 2 3 (by norm_num) (by norm_num)⟩

/-- C4: `affinity_scale` maps every coordinate `(x, y)` to `(x·fx, y·fy)`
with no translation, and `get_polygons` rescales the extracted polygons by
the reciprocals `(1/x_scaler, 1/y_scaler)` of the scalers returned for this
image id and mask shape. -/
theorem rescale_reciprocal_spec (geo : Geo) (im_id : String) (mask : BoolMask)
    (epsilon : ℚ) (cls : Nat) (P : MultiPolygon) (fx fy : ℚ) :
    allCoords (affinity_scale P fx fy) =
      (allCoords P).map (fun q => (q.1 * fx, q.2 * fy))
    ∧ get_polygons geo im_id mask epsilon cls =
        affinity_scale (geo.mask_to_polygons mask epsilon)
          (1 / (geo.get_scalers im_id (shape2 mask)).1)
          (1 / (geo.get_scalers im_id (shape2 mask)).2) :=
  ⟨allCoords_scale fx fy P, rfl⟩

/-- C1: when the mask file exists, `get_poly_data` emits the ground-truth
WKT when a (non-empty) ground-truth entry with the requested class key
exists, and otherwise serializes the predicted polygon. -/
theorem gt_over_prediction (geo : Geo) (store : Store) (im_id : String)
    (cls : Nat) (t e : ℚ) (mask0 : Mask) (hm : store im_id = some mask0) :
    (∀ d w, geo.wkt_data im_id = some d → d ≠ [] →
        lookupD d (cls + 1) = some w →
        get_poly_data geo store im_id cls t e =
          Except.ok (im_id, toString (cls + 1), w))
    ∧ (geo.wkt_data im_id = none →
        get_poly_data geo store im_id cls t e =
          Except.ok (im_id, toString (cls + 1),
            geo.wkt_dumps (get_polygons geo im_id (gt_threshold mask0 t) e cls))) := by
  constructor
  · intro d w hd hne hw
    simp [get_poly_data, hm, hd, hne, hw]
  · intro hd
    simp [get_poly_data, hm, hd]

/-- Witness for C1 at image "a", class 0, with the mask file present. -/
theorem gt_over_prediction_witness :
    store1 "a" = some [[1]] ∧
    ((∀ d w, gtGeo.wkt_data "a" = some d → d ≠ [] →
        lookupD d (0 + 1) = some w →
        get_poly_data gtGeo store1 "a" 0 (1 / 2) 5 =
          Except.ok ("a", toString (0 + 1), w))
     ∧ (gtGeo.wkt_data "a" = none →
        get_poly_data gtGeo store1 "a" 0 (1 / 2) 5 =
          Except.ok ("a", toString (0 + 1),
            gtGeo.wkt_dumps (get_polygons gtGeo "a" (gt_threshold [[1]] (1 / 2)) 5 0)))) :=
  ⟨rfl, gt_over_prediction gtGeo store1 "a" 0 (1 / 2) 5 [[1]] rfl⟩

/-- C3: when the mask file is absent, `get_poly_data` returns the row
`(im_id, str(cls+1), "MULTIPOLYGON EMPTY")` and raises no exception. -/
theorem missing_mask_empty_row (geo : Geo) (store : Store) (im_id : String)
    (cls : Nat) (t e : ℚ) (hm : store im_id = none) :
    get_poly_data geo store im_id cls t e =
      Except.ok (im_id, toString (cls + 1), "MULTIPOLYGON EMPTY") := by
  simp [get_poly_data, hm]

/-- Witness for C3 at image "x", class 3, with no mask file. -/
theorem missing_mask_empty_row_witness :
    store0 "x" = none ∧
    get_poly_data trivGeo store0 "x" 3 (1 / 2) 5 =
      Except.ok ("x", toString (3 + 1), "MULTIPOLYGON EMPTY") :=
  ⟨rfl, missing_mask_empty_row trivGeo store0 "x" 3 (1 / 2) 5 rfl⟩

/-- C7: every row `get_poly_data` returns carries `str(cls + 1)` as its
class field, in all three outcome branches. -/
theorem poly_type_one_based (geo : Geo) (store : Store) (im_id : String)
    (cls : Nat) (t e : ℚ) (r : String × String × String)
    (h : get_poly_data geo store im_id cls t e = Except.ok r) :
    r.2.1 = toString (cls + 1) := by
  unfold get_poly_data at h
  split at h
  · simp only [] at h
    split at h
    · split at h
      · split at h
        · cases h
          rfl
        · cases h
      · cases h
        rfl
    · cases h
      rfl
  · cases h
    rfl

/-- Witness for C7: the missing-mask branch at class 0 yields field "1". -/
theorem poly_type_one_based_witness :
    get_poly_data trivGeo store0 "x" 0 (1 / 2) 5 =
      Except.ok ("x", toString (0 + 1), "MULTIPOLYGON EMPTY") ∧
    (("x", toString (0 + 1), "MULTIPOLYGON EMPTY") :
        String × String × String).2.1 = toString (0 + 1) :=
  ⟨rfl, poly_type_one_based trivGeo store0 "x" 0 (1 / 2) 5 _ rfl⟩

/-- C9: mask file present, ground-truth dict present and non-empty, but the
key `cls + 1` is absent: `get_poly_data` raises `KeyError` instead of
returning a row. -/
theorem keyerror_on_missing_class (geo : Geo) (store : Store) (im_id : String)
    (cls : Nat) (t e : ℚ) (mask0 : Mask) (d : List (Nat × String))
    (hm : store im_id = some mask0) (hd : geo.wkt_data im_id = some d)
    (hne : d ≠ []) (hk : lookupD d (cls + 1) = none) :
    get_poly_data geo store im_id cls t e = Except.error "KeyError" := by
  simp [get_poly_data, hm, hd, hne, hk]

/-- Witness for C9: the ground-truth dict `{5 : "w"}` lacks key 1. -/
theorem keyerror_on_missing_class_witness :
    store1 "a" = some [[1]] ∧
    gtGeo5.wkt_data "a" = some [(5, "w")] ∧
    ([(5, "w")] : List (Nat × String)) ≠ [] ∧
    lookupD [(5, "w")] (0 + 1) = none ∧
    get_poly_data gtGeo5 store1 "a" 0 (1 / 2) 5 = Except.error "KeyError" :=
  ⟨rfl, rfl, by decide, rfl,
   keyerror_on_missing_class gtGeo5 store1 "a" 0 (1 / 2) 5 [[1]] [(5, "w")]
     rfl rfl (by decide) rfl⟩

/-- C10: thresholding is elementwise strict greater-than into a fresh
boolean array: the output pixel at (i, j) is `decide (t < v)` for the input
score `v` there, so a score equal to the threshold comes out off. -/
theorem threshold_strict_gt (m : Mask) (t : ℚ) :
    (∀ (i j : Nat) (v : ℚ), (m[i]?.bind fun r => r[j]?) = some v →
        ((gt_threshold m t)[i]?.bind fun r => r[j]?) = some (decide (t < v)))
    ∧ ∀ (i j : Nat) (v : ℚ), (m[i]?.bind fun r => r[j]?) = some v → v = t →
        ((gt_threshold m t)[i]?.bind fun r => r[j]?) = some false := by
  have key : ∀ (i j : Nat) (v : ℚ), (m[i]?.bind fun r => r[j]?) = some v →
      ((gt_threshold m t)[i]?.bind fun r => r[j]?) = some (decide (t < v)) := by
    intro i j v h
    cases hi : m[i]? with
    | none => rw [hi] at h; cases h
    | some row =>
      rw [hi] at h
      simp only [Option.some_bind] at h
      simp [gt_threshold, List.getElem?_map, hi, h]
  refine ⟨key, fun i j v h hveq => ?_⟩
  have := key i j v h
  rw [hveq] at this
  simpa using this

/-- Witness for C10 on the mask `[[1, 1/2]]` with threshold 1/2: the score
1 comes out on, the score exactly 1/2 comes out off. -/
theorem threshold_strict_gt_witness :
    ((([[1, 1 / 2]] : Mask)[0]?.bind fun r => r[0]?) = some 1) ∧
    (((gt_threshold [[1, 1 / 2]] (1 / 2))[0]?.bind fun r => r[0]?) =
      some (decide ((1 : ℚ) / 2 < 1))) ∧
    ((([[1, 1 / 2]] : Mask)[0]?.bind fun r => r[1]?) = some (1 / 2)) ∧
    (((gt_threshold [[1, 1 / 2]] (1 / 2))[0]?.bind fun r => r[1]?) =
      some false) :=
  ⟨rfl, (threshold_strict_gt [[1, 1 / 2]] (1 / 2)).1 0 0 1 rfl, rfl,
   (threshold_strict_gt [[1, 1 / 2]] (1 / 2)).2 0 1 (1 / 2) rfl rfl⟩

lemma predict_step_preserves (predict : String → Mask) (s : Store)
    (x y : String) (m : Mask) (h : s x = some m) :
    predict_step predict s y x = some m := by
  unfold predict_step
  cases hy : s y with
  | some _ => exact h
  | none =>
    have hxy : x ≠ y := by
      intro he
      rw [he, hy] at h
      cases h
    simp [hxy, h]

lemma predict_masks_preserves (predict : String → Mask) (ids : List String)
    (s : Store) (x : String) (m : Mask) (h : s x = some m) :
    predict_masks predict ids s x = some m := by
  induction ids generalizing s with
  | nil => exact h
  | cons a as ih =>
    simp only [predict_masks, List.foldl_cons]
    exact ih (predict_step predict s a) (predict_step_preserves predict s x a m h)

/-- C8: an image whose mask file already exists is skipped: the single loop
step leaves the whole store unchanged, and after the full loop over any list
of ids the stored mask for that image is still the original one. -/
theorem skip_existing_mask (predict : String → Mask) (s : Store)
    (im_id : String) (m : Mask) (h : s im_id = some m) :
    predict_step predict s im_id = s
    ∧ ∀ ids : List String, predict_masks predict ids s im_id = some m := by
  constructor
  · unfold predict_step
    rw [h]
  · intro ids
    exact predict_masks_preserves predict ids s im_id m h

/-- Witness for C8: a store where the mask `[[1]]` for "a" already exists. -/
theorem skip_existing_mask_witness :
    store1 "a" = some [[1]] ∧
    (predict_step (fun _ => []) store1 "a" = store1
     ∧ ∀ ids : List String, predict_masks (fun _ => []) ids store1 "a" = some [[1]]) :=
  ⟨rfl, skip_existing_mask (fun _ => []) store1 "a" [[1]] rfl⟩

/-- C2: the logged pixel Jaccard is `tp / (tp + fp + fn + 1e-15)` for the
confusion counts of the thresholded mask against the rasterized reference
mask, and the logged polygon Jaccard is
`intersection_area / (union_area + 1e-15)` of the two multipolygons. -/
theorem jaccard_formulas (geo : Geo) (im_id : String)
    (pred_poly : MultiPolygon) (tw : String) (mask : BoolMask) (t : ℚ) :
    (log_jaccard geo im_id pred_poly tw mask t).2 =
      ((mask_tp_fp_fn mask (true_mask_of geo im_id tw mask) t).1 : ℚ) /
        (((mask_tp_fp_fn mask (true_mask_of geo im_id tw mask) t).1 : ℚ) +
         ((mask_tp_fp_fn mask (true_mask_of geo im_id tw mask) t).2.1 : ℚ) +
         ((mask_tp_fp_fn mask (true_mask_of geo im_id tw mask) t).2.2 : ℚ) +
         1 / 10 ^ 15)
    ∧ (log_jaccard geo im_id pred_poly tw mask t).1 =
        geo.area (geo.geo_inter pred_poly (geo.wkt_loads tw)) /
          (geo.area (geo.geo_union pred_poly (geo.wkt_loads tw)) + 1 / 10 ^ 15) :=
  ⟨rfl, rfl⟩

lemma countPix_eq_zero_left (f : Bool → Bool → Bool) (a b : BoolMask)
    (hf : ∀ y, f false y = false)
    (ha : ∀ r ∈ a, ∀ x ∈ r, x = false) : countPix f a b = 0 := by
  unfold countPix
  rw [List.countP_eq_zero]
  intro q hq
  obtain ⟨hq1, _⟩ := List.of_mem_zip hq
  obtain ⟨r, hr, hx⟩ := List.mem_flatten.mp hq1
  have h1 : q.1 = false := ha r hr q.1 hx
  simp [h1, hf]

lemma countPix_eq_zero_right (f : Bool → Bool → Bool) (a b : BoolMask)
    (hf : ∀ x, f x false = false)
    (hb : ∀ r ∈ b, ∀ x ∈ r, x = false) : countPix f a b = 0 := by
  unfold countPix
  rw [List.countP_eq_zero]
  intro q hq
  obtain ⟨_, hq2⟩ := List.of_mem_zip hq
  obtain ⟨r, hr, hx⟩ := List.mem_flatten.mp hq2
  have h2 : q.2 = false := hb r hr q.2 hx
  simp [h2, hf]

/-- C6: under the geometry library's guarantees that intersection area is
non-negative and bounded by union area, both logged Jaccard values lie in
[0, 1]; when both polygons are empty (union area 0) the polygon Jaccard is
0, and when both masks are all-off the pixel Jaccard is 0. -/
theorem jaccard_in_unit_interval (geo : Geo) (im_id : String)
    (pred_poly : MultiPolygon) (tw : String) (mask : BoolMask) (t : ℚ)
    (h0 : 0 ≤ geo.area (geo.geo_inter pred_poly (geo.wkt_loads tw)))
    (h1 : geo.area (geo.geo_inter pred_poly (geo.wkt_loads tw)) ≤
          geo.area (geo.geo_union pred_poly (geo.wkt_loads tw))) :
    (0 ≤ (log_jaccard geo im_id pred_poly tw mask t).1 ∧
     (log_jaccard geo im_id pred_poly tw mask t).1 ≤ 1)
    ∧ (0 ≤ (log_jaccard geo im_id pred_poly tw mask t).2 ∧
       (log_jaccard geo im_id pred_poly tw mask t).2 ≤ 1)
    ∧ (geo.area (geo.geo_union pred_poly (geo.wkt_loads tw)) = 0 →
       (log_jaccard geo im_id pred_poly tw mask t).1 = 0)
    ∧ ((∀ r ∈ mask, ∀ x ∈ r, x = false) →
       (∀ r ∈ true_mask_of geo im_id tw mask, ∀ x ∈ r, x = false) →
       (log_jaccard geo im_id pred_poly tw mask t).2 = 0) := by
  have hlj := log_jaccard_eq geo im_id pred_poly tw mask t
  set A := geo.area (geo.geo_inter pred_poly (geo.wkt_loads tw)) with hA
  set B := geo.area (geo.geo_union pred_poly (geo.wkt_loads tw)) with hB
  set tp := countPix (fun a b => a && b) mask (true_mask_of geo im_id tw mask)
    with htp
  set fp := countPix (fun a b => a && !b) mask (true_mask_of geo im_id tw mask)
    with hfp
  set fn := countPix (fun a b => !a && b) mask (true_mask_of geo im_id tw mask)
    with hfn
  have hfst : (log_jaccard geo im_id pred_poly tw mask t).1 =
      A / (B + 1 / 10 ^ 15) := by rw [hlj]
  have hsnd : (log_jaccard geo im_id pred_poly tw mask t).2 =
      (tp : ℚ) / ((tp : ℚ) + (fp : ℚ) + (fn : ℚ) + 1 / 10 ^ 15) := by rw [hlj]
  have heps : (0 : ℚ) < 1 / 10 ^ 15 := by norm_num
  have hBnn : (0 : ℚ) ≤ B := le_trans h0 h1
  have htpn : (0 : ℚ) ≤ (tp : ℚ) := Nat.cast_nonneg tp
  have hfpn : (0 : ℚ) ≤ (fp : ℚ) := Nat.cast_nonneg fp
  have hfnn : (0 : ℚ) ≤ (fn : ℚ) := Nat.cast_nonneg fn
  refine ⟨⟨?_, ?_⟩, ⟨?_, ?_⟩, ?_, ?_⟩
  · rw [hfst]
    exact div_nonneg h0 (by linarith)
  · rw [hfst]
    rw [div_le_one (by linarith)]
    linarith
  · rw [hsnd]
    exact div_nonneg htpn (by linarith)
  · rw [hsnd]
    rw [div_le_one (by linarith)]
    linarith
  · intro hU
    rw [hfst, hU]
    have hA0 : A = 0 := le_antisymm (hU ▸ h1) h0
    rw [hA0]
    simp
  · intro hma hmb
    have h2 : tp = 0 := countPix_eq_zero_left _ _ _ (fun y => rfl) hma
    have h3 : fp = 0 := countPix_eq_zero_left _ _ _ (fun y => rfl) hma
    have h4 : fn = 0 := countPix_eq_zero_right _ _ _
      (fun x => by cases x <;> rfl) hmb
    rw [hsnd, h2, h3, h4]
    simp

/-- Witness for C6 with the trivial geometry environment, empty polygons
and empty masks. -/
theorem jaccard_in_unit_interval_witness :
    (0 ≤ trivGeo.area (trivGeo.geo_inter [] (trivGeo.wkt_loads "w"))) ∧
    (trivGeo.area (trivGeo.geo_inter [] (trivGeo.wkt_loads "w")) ≤
     trivGeo.area (trivGeo.geo_union [] (trivGeo.wkt_loads "w"))) ∧
    ((0 ≤ (log_jaccard trivGeo "a" [] "w" [] (1 / 2)).1 ∧
      (log_jaccard trivGeo "a" [] "w" [] (1 / 2)).1 ≤ 1)
     ∧ (0 ≤ (log_jaccard trivGeo "a" [] "w" [] (1 / 2)).2 ∧
        (log_jaccard trivGeo "a" [] "w" [] (1 / 2)).2 ≤ 1)
     ∧ (trivGeo.area (trivGeo.geo_union [] (trivGeo.wkt_loads "w")) = 0 →
        (log_jaccard trivGeo "a" [] "w" [] (1 / 2)).1 = 0)
     ∧ ((∀ r ∈ ([] : BoolMask), ∀ x ∈ r, x = false) →
        (∀ r ∈ true_mask_of trivGeo "a" "w" [], ∀ x ∈ r, x = false) →
        (log_jaccard trivGeo "a" [] "w" [] (1 / 2)).2 = 0)) :=
  ⟨le_refl 0, le_refl 0,
   jaccard_in_unit_interval trivGeo "a" [] "w" [] (1 / 2) (le_refl 0) (le_refl 0)⟩
